import Mathlib

/-!
Verification of the upstream request router and response-normalization layer
of the mcp-mistral-codestral bridge.

The definitions below are a shallow embedding of `src/mistral.ts` and of the
response-formatting code in the server entry file.  JavaScript semantics that
matter to the claims are made explicit:
* `a || b` on strings treats the empty string as falsy (`jsOrString`),
* `a ?? b` is `Option.getD`,
* optional-chaining property access yields `none` on non-objects (`jsProp`),
* JSON numbers are modelled as integers (no claim depends on fractional
  values inside JSON bodies); sampling parameters of outbound request bodies
  are modelled as rationals so that the literal `0.7` is exact.
-/

/-- JSON values as delivered by the upstream HTTP client (`response.data`).
Numbers are modelled as integers. -/
inductive Json where
  | null : Json
  | bool (b : Bool) : Json
  | num (n : Int) : Json
  | str (s : String) : Json
  | arr (xs : List Json) : Json
  | obj (fields : List (String × Json)) : Json
deriving Repr

/-- First binding of a key in a JS object (association list). -/
def jGet (fields : List (String × Json)) (k : String) : Option Json :=
  (fields.find? (fun p => p.1 = k)).map Prod.snd

/-- JS property access `j?.k`: defined only on objects, `undefined`
(here `none`) on every other value. -/
def jsProp (j : Json) (k : String) : Option Json :=
  match j with
  | Json.obj fields => jGet fields k
  | _ => none

/-- JS truthiness of a JSON value. -/
def jsTruthy : Json → Bool
  | Json.null => false
  | Json.bool b => b
  | Json.num n => n ≠ 0
  | Json.str s => s ≠ ""
  | Json.arr _ => true
  | Json.obj _ => true

mutual

/-- JS string coercion (`${v}` in a template literal).  An array renders as
its elements joined by commas, where a null element renders empty. -/
def jsToString : Json → String
  | Json.null => "null"
  | Json.bool b => cond b "true" "false"
  | Json.num n => Int.repr n
  | Json.str s => s
  | Json.arr xs => jsArrJoin xs
  | Json.obj _ => "[object Object]"

/-- Rendering `Array.prototype.join(",")` uses for a JS array inside string
coercion: null elements become empty strings. -/
def jsArrJoin : List Json → String
  | [] => ""
  | [Json.null] => ""
  | [x] => jsToString x
  | Json.null :: xs => "," ++ jsArrJoin xs
  | x :: xs => jsToString x ++ "," ++ jsArrJoin xs

end

/-- JS `a || b` for an optional string: the empty string is falsy. -/
def jsOrString (a : Option String) (b : String) : String :=
  match a with
  | some s => if s = "" then b else s
  | none => b

-- ### Model Registry and Endpoint Router (src/mistral.ts lines 4-26)

def CODESTRAL_API_BASE : String := "https://codestral.mistral.ai/v1"

def MISTRAL_API_BASE : String := "https://api.mistral.com/v1"

namespace MISTRAL_MODELS

def CODESTRAL : String := "codestral-latest"

def CODESTRAL_MAMBA : String := "codestral-mamba-latest"

def MISTRAL_LARGE : String := "mistral-large-latest"

def MISTRAL_SMALL : String := "mistral-small-latest"

def MINISTRAL_8B : String := "ministral-8b-latest"

def MINISTRAL_3B : String := "ministral-3b-latest"

end MISTRAL_MODELS

/-- The six known model identifiers (the `MistralModel` union type). -/
def knownModels : List String :=
  [MISTRAL_MODELS.CODESTRAL, MISTRAL_MODELS.CODESTRAL_MAMBA,
   MISTRAL_MODELS.MISTRAL_LARGE, MISTRAL_MODELS.MISTRAL_SMALL,
   MISTRAL_MODELS.MINISTRAL_8B, MISTRAL_MODELS.MINISTRAL_3B]

/-- Function `getApiBase` (src/mistral.ts lines 21-26): code-specialized models go to
the Codestral base, everything else to the general Mistral base. -/
def getApiBase (model : String) : String :=
  if model = MISTRAL_MODELS.CODESTRAL ∨ model = MISTRAL_MODELS.CODESTRAL_MAMBA then
    CODESTRAL_API_BASE
  else
    MISTRAL_API_BASE

-- ### Response Validator (src/mistral.ts lines 29-47, zod CompletionResponseSchema)

structure ChoiceMessage where
  role : String
  content : String
deriving Repr, DecidableEq

structure Choice where
  index : Int
  message : ChoiceMessage
  finish_reason : Option String
deriving Repr, DecidableEq

structure Usage where
  prompt_tokens : Int
  completion_tokens : Int
  total_tokens : Int
deriving Repr, DecidableEq

structure CompletionResponse where
  id : String
  object : String
  created : Int
  model : String
  choices : List Choice
  usage : Usage
deriving Repr, DecidableEq

/-- Check `z.string()` on a looked-up field. -/
def zString : Option Json → Option String
  | some (Json.str s) => some s
  | _ => none

/-- Check `z.number()` on a looked-up field. -/
def zNumber : Option Json → Option Int
  | some (Json.num n) => some n
  | _ => none

/-- Check `z.object(...)`: the value must itself be an object. -/
def zObjFields : Option Json → Option (List (String × Json))
  | some (Json.obj fields) => some fields
  | _ => none

/-- Check `z.array(...)`: the value must be an array. -/
def zArray : Option Json → Option (List Json)
  | some (Json.arr xs) => some xs
  | _ => none

/-- Check `z.string().optional()`: an absent key is accepted as `none`; a present
key must be a string. -/
def zOptString (v : Option Json) : Option (Option String) :=
  match v with
  | none => some none
  | some (Json.str s) => some (some s)
  | some _ => none

/-- One element of the `choices` array of `CompletionResponseSchema`. -/
def parseChoice (j : Json) : Option Choice := do
  let fields ← zObjFields (some j)
  let index ← zNumber (jGet fields "index")
  let msgFields ← zObjFields (jGet fields "message")
  let role ← zString (jGet msgFields "role")
  let content ← zString (jGet msgFields "content")
  let fr ← zOptString (jGet fields "finish_reason")
  pure { index := index, message := { role := role, content := content },
         finish_reason := fr }

/-- The check `CompletionResponseSchema.parse`: `some` on a body of the expected shape,
`none` (a thrown ZodError) on any missing or mistyped field.  Unknown keys
are ignored, as `z.object` strips them. -/
def parseCompletionResponse (j : Json) : Option CompletionResponse := do
  let fields ← zObjFields (some j)
  let id ← zString (jGet fields "id")
  let objectField ← zString (jGet fields "object")
  let created ← zNumber (jGet fields "created")
  let model ← zString (jGet fields "model")
  let choicesRaw ← zArray (jGet fields "choices")
  let choices ← choicesRaw.mapM parseChoice
  let usageFields ← zObjFields (jGet fields "usage")
  let prompt_tokens ← zNumber (jGet usageFields "prompt_tokens")
  let completion_tokens ← zNumber (jGet usageFields "completion_tokens")
  let total_tokens ← zNumber (jGet usageFields "total_tokens")
  pure { id := id, object := objectField, created := created, model := model,
         choices := choices,
         usage := { prompt_tokens := prompt_tokens,
                    completion_tokens := completion_tokens,
                    total_tokens := total_tokens } }

-- ### Code Extractor (formatResponse in the server entry file)
-- The regex is /```[\w]*\n([\s\S]*?)```/g : a literal fence, a greedy run of
-- word characters, a newline, then a lazy capture up to the next fence.

/-- JS `\w`: ASCII letters, digits and underscore. -/
def isWordChar (c : Char) : Bool := c.isAlphanum || c = '_'

/-- Whitespace removed by JS `String.prototype.trim`. -/
def isJsWhitespace (c : Char) : Bool :=
  c = ' ' || c = '\t' || c = '\n' || c = '\r' ||
  c = '\x0b' || c = '\x0c' || c = '\u00A0' || c = '\uFEFF'

/-- JS `trim` on a character list. -/
def trimChars (l : List Char) : List Char :=
  ((l.dropWhile isJsWhitespace).reverse.dropWhile isJsWhitespace).reverse

/-- JS `String.prototype.trim`. -/
def jsTrim (s : String) : String := String.mk (trimChars s.data)

/-- Scan for the first closing fence; returns the (lazy) capture before it
and the remaining text after it.  `[\s\S]*?` matches as little as possible,
which is exactly "up to the first occurrence of the closing fence". -/
def findClose : List Char → Option (List Char × List Char)
  | '`' :: '`' :: '`' :: rest => some ([], rest)
  | c :: rest => (findClose rest).map (fun p => (c :: p.1, p.2))
  | [] => none

/-- Try to match the whole regex at exactly this position: an opening fence,
a greedy run of word characters (the optional language tag), a newline, then
the lazy capture closed by the next fence.  Returns the capture and the text
after the match.  The greedy `[\w]*` cannot backtrack usefully because every
shorter run still ends at a word character, never at the required newline,
so a maximal run followed by a newline test is equivalent. -/
def matchFenceAt (s : List Char) : Option (List Char × List Char) :=
  match s with
  | '`' :: '`' :: '`' :: rest =>
    match rest.dropWhile isWordChar with
    | '\n' :: body => findClose body
    | _ => none
  | _ => none

/-- Leftmost-first repeated matching as `matchAll` performs it: try each
position left to right; on a match, emit the capture and resume after the
match.  The fuel only bounds the scan; every step consumes at least one
character, so `s.length` fuel is always enough. -/
def extractBlocksAux : Nat → List Char → List (List Char)
  | 0, _ => []
  | _ + 1, [] => []
  | fuel + 1, s =>
    match matchFenceAt s with
    | some (cap, after) => cap :: extractBlocksAux fuel after
    | none => extractBlocksAux fuel s.tail

/-- All captures of the global regex over the text, in document order. -/
def extractBlocks (s : List Char) : List (List Char) :=
  extractBlocksAux s.length s

/-- The code-extraction step of `formatResponse`: if the regex matched at
least once, the trimmed captures joined by a blank line; otherwise the
content unchanged. -/
def extractCode (content : String) : String :=
  let blocks := extractBlocks content.data
  if blocks.length > 0 then
    String.intercalate "\n\n" (blocks.map (fun b => String.mk (trimChars b)))
  else content

/-- Function `formatResponse` (server entry file lines 80-96): rejects a response
whose `choices` is empty, otherwise extracts code from the first choice's
message content.  After schema validation `choices` is always an array, so
the JS `!completion.choices` guard reduces to the emptiness check. -/
def formatResponse (completion : CompletionResponse) : Except String String :=
  match completion.choices with
  | [] => Except.error "Invalid completion response"
  | choice :: _ => Except.ok (extractCode choice.message.content)

-- ### JSON serialization (JSON.stringify, used by the fim error path)

/-- One character of `JSON.stringify` string escaping. -/
def jsonEscapeChar (c : Char) : String :=
  if c = '"' then "\\\"" else
  if c = '\\' then "\\\\" else
  if c = '\n' then "\\n" else
  if c = '\r' then "\\r" else
  if c = '\t' then "\\t" else
  if c = '\x08' then "\\b" else
  if c = '\x0c' then "\\f" else
  if c.toNat < 32 then
    "\\u00" ++ String.singleton (Nat.digitChar (c.toNat / 16)) ++
      String.singleton (Nat.digitChar (c.toNat % 16))
  else String.singleton c

def jsonEscape (s : String) : String :=
  String.join (s.data.map jsonEscapeChar)

mutual

/-- Rendering `JSON.stringify` of a JSON value. -/
def jsonStringify : Json → String
  | Json.null => "null"
  | Json.bool b => cond b "true" "false"
  | Json.num n => Int.repr n
  | Json.str s => "\"" ++ jsonEscape s ++ "\""
  | Json.arr xs => "[" ++ jsonStringifyList xs ++ "]"
  | Json.obj fields => "\x7b" ++ jsonStringifyFields fields ++ "\x7d"

def jsonStringifyList : List Json → String
  | [] => ""
  | [x] => jsonStringify x
  | x :: xs => jsonStringify x ++ "," ++ jsonStringifyList xs

def jsonStringifyFields : List (String × Json) → String
  | [] => ""
  | [(k, v)] => "\"" ++ jsonEscape k ++ "\":" ++ jsonStringify v
  | (k, v) :: fs => "\"" ++ jsonEscape k ++ "\":" ++ jsonStringify v ++ "," ++ jsonStringifyFields fs

end

-- ### Error Translator (catch blocks of chatCompletion and fimCompletion)

/-- The part of an `AxiosError` the catch blocks read when a response was
received: the HTTP status and the parsed body. -/
structure AxiosResponse where
  status : Nat
  data : Json
deriving Repr

/-- An `AxiosError`: `response` is `none` exactly when no response was
received (connection failure or the 30-second timeout firing); `message` is
the error's own generic message. -/
structure AxiosFailure where
  response : Option AxiosResponse
  message : String
deriving Repr

/-- The value `error.response?.status` as the `switch` scrutinee. -/
def failureStatus (e : AxiosFailure) : Option Nat :=
  e.response.map AxiosResponse.status

/-- Template-literal rendering of `status : number | undefined`. -/
def statusDisplay : Option Nat → String
  | some n => Nat.repr n
  | none => "undefined"

/-- The value `error.response?.data?.error?.message || error.message`. -/
def upstreamMessage (e : AxiosFailure) : String :=
  match e.response with
  | none => e.message
  | some r =>
    match jsProp r.data "error" with
    | none => e.message
    | some errField =>
      match jsProp errField "message" with
      | none => e.message
      | some v => if jsTruthy v then jsToString v else e.message

def authFailedMessage : String := "Authentication failed. Please check your API key."

def rateLimitedMessage : String := "Rate limit exceeded. Please try again later."

def serverErrorMessage : String := "Mistral API server error. Please try again later."

def apiErrorPrefix : String := "Mistral API error ("

/-- The catch block of `chatCompletion` (src/mistral.ts lines 142-159) as a
function from the caught `AxiosError` to the message of the `Error` it
throws.  The JS `switch` on `error.response?.status` is a sequence of
equality tests; `undefined` (no response) falls through to the default arm. -/
def chatCompletionErrorMessage (e : AxiosFailure) : String :=
  let status := failureStatus e
  let message := upstreamMessage e
  if status = some 401 then authFailedMessage
  else if status = some 429 then rateLimitedMessage
  else if status = some 500 then serverErrorMessage
  else apiErrorPrefix ++ statusDisplay status ++ "): " ++ message

/-- The catch block of `fimCompletion` (src/mistral.ts lines 210-233) for a
caught `AxiosError`: identical to the chat translation except that the
default arm appends a dump of `JSON.stringify(error.response?.data)`
(`undefined` stringifies to the text "undefined" inside the template). -/
def fimCompletionErrorMessage (e : AxiosFailure) : String :=
  let status := failureStatus e
  let message := upstreamMessage e
  if status = some 401 then authFailedMessage
  else if status = some 429 then rateLimitedMessage
  else if status = some 500 then serverErrorMessage
  else apiErrorPrefix ++ statusDisplay status ++ "): " ++ message ++
    "\nResponse: " ++
    (match e.response with
     | some r => jsonStringify r.data
     | none => "undefined")

-- ### Upstream Client operations as functions of the upstream outcome

/-- What the single upstream HTTP round trip produced: either a reply body,
or an `AxiosError` (HTTP error status, connection failure, or timeout). -/
inductive UpstreamOutcome where
  | success (body : Json)
  | axiosFailure (e : AxiosFailure)

/-- A thrown JS error as the callers of the client see it: a plain `Error`
built by a catch block, a rethrown ZodError from schema validation, or an
`AxiosError`.  The last constructor exists because `validateApiKey` tests
`error instanceof AxiosError`; the proofs show `chatCompletion` never
actually throws one (its catch block converts every `AxiosError` into a
plain `Error`), which is what makes that test's branch unreachable. -/
inductive Thrown where
  | plainError (msg : String)
  | zodError
  | axiosError (e : AxiosFailure)
deriving Repr

/-- Method `chatCompletion` (src/mistral.ts lines 117-160) given the outcome of its
POST: a validated response on success, a rethrown ZodError when the body
fails the schema, and a plain `Error` with the translated message on an
`AxiosError`. -/
def chatCompletion (outcome : UpstreamOutcome) : Except Thrown CompletionResponse :=
  match outcome with
  | UpstreamOutcome.success body =>
    match parseCompletionResponse body with
    | some r => Except.ok r
    | none => Except.error Thrown.zodError
  | UpstreamOutcome.axiosFailure e =>
    Except.error (Thrown.plainError (chatCompletionErrorMessage e))

/-- Method `fimCompletion` (src/mistral.ts lines 163-234) given the outcome of its
POST. A non-Axios error (the ZodError) is wrapped as
"Unexpected error during FIM completion: ...". -/
def fimCompletion (outcome : UpstreamOutcome) : Except Thrown CompletionResponse :=
  match outcome with
  | UpstreamOutcome.success body =>
    match parseCompletionResponse body with
    | some r => Except.ok r
    | none => Except.error Thrown.zodError
  | UpstreamOutcome.axiosFailure e =>
    Except.error (Thrown.plainError (fimCompletionErrorMessage e))

def startupInvalidKeyMessage : String := "Invalid API key. Please check your Codestral API key."

/-- Method `validateApiKey` (src/mistral.ts lines 91-115) given the outcome of the
probe call it delegates to `chatCompletion`.  Its catch block tests
`error instanceof AxiosError`; since `chatCompletion` only throws plain
`Error`s (or rethrows the non-Axios ZodError), that test examines what
`chatCompletion` threw, and its 401 arm is modelled exactly as written. -/
def validateApiKey (outcome : UpstreamOutcome) : Except Thrown Bool :=
  match chatCompletion outcome with
  | Except.ok _ => Except.ok true
  | Except.error err =>
    match err with
    | Thrown.axiosError a =>
      if failureStatus a = some 401 then
        Except.error (Thrown.plainError startupInvalidKeyMessage)
      else
        Except.error (Thrown.plainError ("API validation failed: " ++ a.message))
    | e => Except.error e

-- ### Outbound request bodies (src/mistral.ts lines 127-138 and 179-187)

structure ChatMessage where
  role : String
  content : String
deriving Repr, DecidableEq

/-- The optional argument object of `chatCompletion`. -/
structure ChatOptions where
  model : Option String := none
  temperature : Option Rat := none
  top_p : Option Rat := none
  max_tokens : Option Nat := none
  stop : Option (List String) := none

/-- The optional argument object of `fimCompletion`. -/
structure FimOptions where
  suffix : Option String := none
  temperature : Option Rat := none
  top_p : Option Rat := none
  max_tokens : Option Nat := none
  stop : Option (List String) := none

/-- The body `chatCompletion` POSTs to `/chat/completions`. -/
structure ChatRequestBody where
  model : String
  messages : List ChatMessage
  temperature : Rat
  top_p : Rat
  max_tokens : Nat
  stop : Option (List String)

/-- The body `fimCompletion` POSTs to `/fim/completions`. -/
structure FimRequestBody where
  model : String
  prompt : String
  suffix : Option String
  temperature : Rat
  top_p : Rat
  max_tokens : Nat
  stop : Option (List String)

/-- The line `const model = options.model || MISTRAL_MODELS.CODESTRAL` and the body
literal of `chatCompletion`: `??` defaults are 0.7, 1 and 1000. -/
def chatRequestBody (messages : List ChatMessage) (options : ChatOptions) : ChatRequestBody :=
  { model := jsOrString options.model MISTRAL_MODELS.CODESTRAL
    messages := messages
    temperature := options.temperature.getD 0.7
    top_p := options.top_p.getD 1
    max_tokens := options.max_tokens.getD 1000
    stop := options.stop }

/-- The `requestBody` literal of `fimCompletion`: the model field is the
constant `MISTRAL_MODELS.CODESTRAL` and the `??` defaults are 0, 1, 1000. -/
def fimRequestBody (prompt : String) (options : FimOptions) : FimRequestBody :=
  { model := MISTRAL_MODELS.CODESTRAL
    prompt := prompt
    suffix := options.suffix
    temperature := options.temperature.getD 0
    top_p := options.top_p.getD 1
    max_tokens := options.max_tokens.getD 1000
    stop := options.stop }

-- ### Prompt Builder (createPrompt, src/mistral.ts lines 237-268)

inductive TaskKind where
  | complete
  | fix
  | test
  | fim
deriving Repr, DecidableEq

/-- The fixed per-task system prompts of `createPrompt`. -/
def systemPrompts : TaskKind → String
  | TaskKind.complete => "You are an expert programmer. Continue or complete the provided code according to best practices."
  | TaskKind.fix => "You are an expert programmer. Analyze the code for bugs and provide a corrected version with explanations of the fixes."
  | TaskKind.test => "You are an expert programmer. Generate comprehensive unit tests for the provided code using appropriate testing frameworks."
  | TaskKind.fim => "You are an expert programmer. Complete the code between the given start and end sections, ensuring it flows naturally."

/-- JS truthiness of an optional string argument: defined and non-empty. -/
def jsTruthyStr : Option String → Bool
  | some s => s ≠ ""
  | none => false

/-- Method `createPrompt` (src/mistral.ts lines 237-268).  `langStr` renders
`language ? \` ${language}\` : ''`; the fence tag renders
`${language || ''}`; the suffix block is appended under the JS-truthy test
`task === 'fim' && suffix`. -/
def createPrompt (code : String) (language : Option String) (task : TaskKind)
    (suffix : Option String := none) : List ChatMessage :=
  let langStr := match language with
    | some l => if l = "" then "" else " " ++ l
    | none => ""
  let langTag := jsOrString language ""
  let baseContent := "Here is the" ++ langStr ++ " code:\n\n```" ++ langTag ++
    "\n" ++ code ++ "\n```"
  let userContent :=
    if task = TaskKind.fim ∧ jsTruthyStr suffix then
      baseContent ++ "\n\nThe code should end with:\n\n```" ++ langTag ++
        "\n" ++ suffix.getD "" ++ "\n```"
    else baseContent
  [{ role := "system", content := systemPrompts task },
   { role := "user", content := userContent }]

-- ### Request Pacer (src/mistral.ts lines 270-285)

/-- Constant `minRequestInterval`: the fixed 100 ms policy constant. -/
def minRequestInterval : Nat := 100

/-- Method `enforceRateLimit` as a pure function of the stored last-request
timestamp and the current clock (milliseconds): returns the wait it would
suspend for and the new stored timestamp (taken after the wait, since the
method reads `Date.now()` again when the awaited timeout resolves). -/
def enforceRateLimit (lastRequestTime now : Nat) : Nat × Nat :=
  let timeSinceLastRequest := now - lastRequestTime
  let wait := if timeSinceLastRequest < minRequestInterval then
    minRequestInterval - timeSinceLastRequest else 0
  (wait, now + wait)

/-- The observable actions of one client method call, in program order, used
to state where the pacer is (not) invoked. -/
inductive Effect where
  | awaitRateLimit
  | consoleLog (tag : String)
  | httpPost (base path : String)
  | schemaParse
deriving Repr, DecidableEq

/-- The ordered effects of the `try` body of `chatCompletion`
(src/mistral.ts lines 127-141): resolve the client for the model, POST to
`/chat/completions`, then validate the body.  There is no call to
`enforceRateLimit` anywhere in the method. -/
def chatCompletionEffects (model : Option String) : List Effect :=
  [Effect.httpPost (getApiBase (jsOrString model MISTRAL_MODELS.CODESTRAL)) "/chat/completions",
   Effect.schemaParse]

/-- The ordered effects of the `try` body of `fimCompletion`
(src/mistral.ts lines 173-201): two debug logs, the POST to
`/fim/completions` on the Codestral client, a response log, then
validation.  There is no call to `enforceRateLimit` anywhere in the
method. -/
def fimCompletionEffects : List Effect :=
  [Effect.consoleLog "FIM Request",
   Effect.consoleLog "FIM Request Body",
   Effect.httpPost CODESTRAL_API_BASE "/fim/completions",
   Effect.consoleLog "FIM Response",
   Effect.schemaParse]

-- ### Process-wide singleton (src/mistral.ts lines 288-296)

/-- The constructed `MistralAPI` state the claims observe: the stored
(trimmed) key.  The constructor throws when the key is blank. -/
structure MistralAPI where
  apiKey : String
deriving Repr, DecidableEq

/-- The `MistralAPI` constructor (src/mistral.ts lines 56-82): rejects an
absent or blank key, stores the trimmed key.  (`!apiKey` and
`apiKey.trim().length === 0` both reduce to blankness of the trim.) -/
def mkMistralAPI (apiKey : String) : Except String MistralAPI :=
  if jsTrim apiKey = "" then Except.error "API key cannot be empty"
  else Except.ok { apiKey := jsTrim apiKey }

/-- Function `getMistralAPI` (src/mistral.ts lines 291-296) over the module-level
`instance` variable: construct only when the stored instance is `none`,
otherwise return the stored instance untouched.  Returns the instance and
the new value of the module variable. -/
def getMistralAPI (apiKey : String) (instanceVar : Option MistralAPI) :
    Except String (MistralAPI × Option MistralAPI) :=
  match instanceVar with
  | some i => Except.ok (i, some i)
  | none =>
    match mkMistralAPI apiKey with
    | Except.ok m => Except.ok (m, some m)
    | Except.error msg => Except.error msg

-- ### Sample upstream reply bodies used as concrete validator inputs

/-- A well-formed completion reply body. -/
def sampleGoodBody : Json := Json.obj [
  ("id", Json.str "cmpl-1"),
  ("object", Json.str "chat.completion"),
  ("created", Json.num 1700000000),
  ("model", Json.str "codestral-latest"),
  ("choices", Json.arr [Json.obj [
    ("index", Json.num 0),
    ("message", Json.obj [("role", Json.str "assistant"), ("content", Json.str "hello")]),
    ("finish_reason", Json.str "stop")]]),
  ("usage", Json.obj [
    ("prompt_tokens", Json.num 1),
    ("completion_tokens", Json.num 2),
    ("total_tokens", Json.num 3)])]

/-- The same body with `usage.total_tokens` missing. -/
def sampleBodyNoTotalTokens : Json := Json.obj [
  ("id", Json.str "cmpl-1"),
  ("object", Json.str "chat.completion"),
  ("created", Json.num 1700000000),
  ("model", Json.str "codestral-latest"),
  ("choices", Json.arr [Json.obj [
    ("index", Json.num 0),
    ("message", Json.obj [("role", Json.str "assistant"), ("content", Json.str "hello")]),
    ("finish_reason", Json.str "stop")]]),
  ("usage", Json.obj [
    ("prompt_tokens", Json.num 1),
    ("completion_tokens", Json.num 2)])]

/-- The same body with `id` mistyped as a number. -/
def sampleBodyMistypedId : Json := Json.obj [
  ("id", Json.num 3),
  ("object", Json.str "chat.completion"),
  ("created", Json.num 1700000000),
  ("model", Json.str "codestral-latest"),
  ("choices", Json.arr [Json.obj [
    ("index", Json.num 0),
    ("message", Json.obj [("role", Json.str "assistant"), ("content", Json.str "hello")]),
    ("finish_reason", Json.str "stop")]]),
  ("usage", Json.obj [
    ("prompt_tokens", Json.num 1),
    ("completion_tokens", Json.num 2),
    ("total_tokens", Json.num 3)])]

/-- A body that is schema-valid but has an empty `choices` array. -/
def sampleBodyEmptyChoices : Json := Json.obj [
  ("id", Json.str "cmpl-2"),
  ("object", Json.str "chat.completion"),
  ("created", Json.num 1700000000),
  ("model", Json.str "codestral-latest"),
  ("choices", Json.arr []),
  ("usage", Json.obj [
    ("prompt_tokens", Json.num 1),
    ("completion_tokens", Json.num 0),
    ("total_tokens", Json.num 1)])]

/-- What `parseCompletionResponse` yields on `sampleBodyEmptyChoices`. -/
def sampleEmptyChoicesResult : CompletionResponse :=
  { id := "cmpl-2", object := "chat.completion", created := 1700000000,
    model := "codestral-latest", choices := [],
    usage := { prompt_tokens := 1, completion_tokens := 0, total_tokens := 1 } }

-- ## Theorems

/-- C5: the Endpoint Router is a pure total function on the six known model
identifiers: both code-specialized identifiers resolve to the Codestral base
and the four general-purpose identifiers resolve to the general Mistral base,
so every known identifier resolves to exactly one upstream target matching
its capability class. -/
theorem C5_endpoint_router_total :
    getApiBase MISTRAL_MODELS.CODESTRAL = CODESTRAL_API_BASE ∧
    getApiBase MISTRAL_MODELS.CODESTRAL_MAMBA = CODESTRAL_API_BASE ∧
    getApiBase MISTRAL_MODELS.MISTRAL_LARGE = MISTRAL_API_BASE ∧
    getApiBase MISTRAL_MODELS.MISTRAL_SMALL = MISTRAL_API_BASE ∧
    getApiBase MISTRAL_MODELS.MINISTRAL_8B = MISTRAL_API_BASE ∧
    getApiBase MISTRAL_MODELS.MINISTRAL_3B = MISTRAL_API_BASE ∧
    ∀ m ∈ knownModels, getApiBase m = CODESTRAL_API_BASE ∨ getApiBase m = MISTRAL_API_BASE := by
  refine ⟨by decide, by decide, by decide, by decide, by decide, by decide, ?_⟩
  decide


/-- C6: with all optional sampling parameters omitted, the chat request body
carries temperature 0.7, top_p 1 and max_tokens 1000; the fim request body
carries temperature 0, top_p 1 and max_tokens 1000; and the fim body's model
field is always the code-specialized default identifier. -/
theorem C6_request_body_defaults :
    (∀ messages : List ChatMessage,
      (chatRequestBody messages {}).temperature = 0.7 ∧
      (chatRequestBody messages {}).top_p = 1 ∧
      (chatRequestBody messages {}).max_tokens = 1000) ∧
    (∀ prompt : String,
      (fimRequestBody prompt {}).temperature = 0 ∧
      (fimRequestBody prompt {}).top_p = 1 ∧
      (fimRequestBody prompt {}).max_tokens = 1000) ∧
    (∀ (prompt : String) (options : FimOptions),
      (fimRequestBody prompt options).model = MISTRAL_MODELS.CODESTRAL) := by
  exact ⟨fun _ => ⟨rfl, rfl, rfl⟩, fun _ => ⟨rfl, rfl, rfl⟩, fun _ _ => rfl⟩

/-- C7: for every code, optional language, task kind and optional suffix,
the Prompt Builder yields exactly one system message (whose text is the
fixed per-task prompt) followed by exactly one user message containing the
code fenced with the language tag (empty tag when the language is absent),
with a second fenced block containing the suffix appended exactly when the
task is fim and a suffix is present (JS truthiness: a provided empty-string
suffix counts as absent).  The output is a pure function of the inputs, so
the same inputs always yield the identical message sequence. -/
theorem C7_prompt_builder :
    ∀ (code : String) (language : Option String) (task : TaskKind) (suffix : Option String),
      (createPrompt code language task suffix).map ChatMessage.role = ["system", "user"] ∧
      (createPrompt code language task suffix).head? =
        some { role := "system", content := systemPrompts task } ∧
      (¬ (task = TaskKind.fim ∧ jsTruthyStr suffix = true) →
        createPrompt code language task suffix =
          [{ role := "system", content := systemPrompts task },
           { role := "user", content :=
              "Here is the" ++
                (match language with
                 | some l => if l = "" then "" else " " ++ l
                 | none => "") ++
                " code:\n\n```" ++ jsOrString language "" ++ "\n" ++ code ++ "\n```" }]) ∧
      ((task = TaskKind.fim ∧ jsTruthyStr suffix = true) →
        createPrompt code language task suffix =
          [{ role := "system", content := systemPrompts task },
           { role := "user", content :=
              "Here is the" ++
                (match language with
                 | some l => if l = "" then "" else " " ++ l
                 | none => "") ++
                " code:\n\n```" ++ jsOrString language "" ++ "\n" ++ code ++ "\n```" ++
                "\n\nThe code should end with:\n\n```" ++ jsOrString language "" ++
                "\n" ++ suffix.getD "" ++ "\n```" }]) := by
  intro code language task suffix
  refine ⟨?_, ?_, ?_, ?_⟩
  · by_cases h : task = TaskKind.fim ∧ jsTruthyStr suffix = true <;>
      simp [createPrompt, h]
  · by_cases h : task = TaskKind.fim ∧ jsTruthyStr suffix = true <;>
      simp [createPrompt, h]
  · intro h
    simp [createPrompt, h]
  · intro h
    simp [createPrompt, h]

/-- C10: `getMistralAPI` constructs the client only when the module-level
instance is absent; any later call ignores its key argument and returns the
instance built from the first call's key. -/
theorem C10_singleton_first_key (k1 k2 : String) (api : MistralAPI) (st : Option MistralAPI)
    (h : getMistralAPI k1 none = Except.ok (api, st)) :
    getMistralAPI k2 st = Except.ok (api, st) ∧ api.apiKey = jsTrim k1 := by
  unfold getMistralAPI mkMistralAPI at h
  by_cases hb : jsTrim k1 = ""
  · simp [hb] at h
  · simp [hb] at h
    obtain ⟨h1, h2⟩ := h
    subst h1
    subst h2
    exact ⟨rfl, rfl⟩

/-- Witness for C10 at concrete keys: the second call with a different key
returns the object built from the first key. -/
theorem C10_singleton_first_key_witness :
    getMistralAPI "second-key" (some { apiKey := "first-key" }) =
      Except.ok ({ apiKey := "first-key" }, some { apiKey := "first-key" }) ∧
    MistralAPI.apiKey { apiKey := "first-key" } = jsTrim "first-key" :=
  C10_singleton_first_key "first-key" "second-key" { apiKey := "first-key" }
    (some { apiKey := "first-key" }) (by rfl)

/-- C1 (divergence): neither `chatCompletion` nor `fimCompletion` ever
invokes the Request Pacer: `enforceRateLimit` has no call site, so no
outbound call awaits the 100 ms floor before dispatch. -/
theorem C1_pacer_never_invoked :
    (∀ model : Option String, Effect.awaitRateLimit ∉ chatCompletionEffects model) ∧
    Effect.awaitRateLimit ∉ fimCompletionEffects := by
  constructor
  · intro model
    simp [chatCompletionEffects]
  · decide

/-- C3 (divergence): when the startup probe receives a 401, the error that
propagates out of `validateApiKey` is the runtime authentication message
thrown by `chatCompletion`, not the startup-specific credential message:
`chatCompletion` converts the `AxiosError` into a plain `Error`, so the
`instanceof AxiosError` test in `validateApiKey` fails and its dedicated
401 branch is unreachable. -/
theorem C3_startup_401_yields_runtime_error :
    chatCompletion (UpstreamOutcome.axiosFailure
      { response := some { status := 401, data := Json.null },
        message := "Request failed with status code 401" }) =
      Except.error (Thrown.plainError authFailedMessage) ∧
    validateApiKey (UpstreamOutcome.axiosFailure
      { response := some { status := 401, data := Json.null },
        message := "Request failed with status code 401" }) =
      Except.error (Thrown.plainError authFailedMessage) ∧
    authFailedMessage ≠ startupInvalidKeyMessage := by
  refine ⟨rfl, rfl, ?_⟩
  decide

/-- C9: the Code Extractor is idempotent on its own output once no fences
remain: if the extraction result matches no further fenced block, applying
the extractor to it returns it unchanged. -/
theorem C9_extract_idempotent (t : String)
    (h : extractBlocks (extractCode t).data = []) :
    extractCode (extractCode t) = extractCode t := by
  have h2 : extractCode (extractCode t) =
      (if (extractBlocks (extractCode t).data).length > 0 then
        String.intercalate "\n\n"
          ((extractBlocks (extractCode t).data).map (fun b => String.mk (trimChars b)))
      else extractCode t) := rfl
  rw [h2, h]
  simp

/-- Witness for C9: the extraction result of a fence-free text contains no
fences, and re-extraction leaves it unchanged. -/
theorem C9_extract_idempotent_witness :
    extractCode (extractCode "plain text") = extractCode "plain text" :=
  C9_extract_idempotent "plain text" (by rfl)

/-- C8: the Code Extractor finds all fenced blocks in document order and,
when at least one is found, returns their trimmed contents joined by a
blank line with prose outside the fences discarded; when none is found it
returns the text unmodified; in particular the two example inputs of the
specification evaluate as stated. -/
theorem C8_code_extractor :
    extractCode "prefix ```js\ncode1\n``` middle ```\ncode2\n``` suffix" = "code1\n\ncode2" ∧
    extractCode "plain text" = "plain text" ∧
    (∀ t : String, extractBlocks t.data = [] → extractCode t = t) ∧
    (∀ t : String, extractBlocks t.data ≠ [] →
      extractCode t = String.intercalate "\n\n"
        ((extractBlocks t.data).map (fun b => String.mk (trimChars b)))) := by
  refine ⟨by decide, by decide, ?_, ?_⟩
  · intro t h
    have h2 : extractCode t =
        (if (extractBlocks t.data).length > 0 then
          String.intercalate "\n\n"
            ((extractBlocks t.data).map (fun b => String.mk (trimChars b)))
        else t) := rfl
    rw [h2, h]
    simp
  · intro t h
    have h2 : extractCode t =
        (if (extractBlocks t.data).length > 0 then
          String.intercalate "\n\n"
            ((extractBlocks t.data).map (fun b => String.mk (trimChars b)))
        else t) := rfl
    rw [h2, if_pos (by simpa [List.length_pos] using h)]

/-- C4: the Response Validator rejects any reply with a missing or mistyped
required field — in every accepted reply the `usage.total_tokens` field was
present as a number (first conjunct, so a reply lacking it can never be
accepted), and the two concrete mutants are rejected outright — while a
reply whose `choices` is the empty array is accepted by the validator and
then surfaces to the caller as the empty-choices error of
`formatResponse`. -/
theorem C4_response_validator :
    (∀ (j : Json) (r : CompletionResponse), parseCompletionResponse j = some r →
      ∃ fields usageFields,
        zObjFields (some j) = some fields ∧
        zObjFields (jGet fields "usage") = some usageFields ∧
        zNumber (jGet usageFields "total_tokens") = some r.usage.total_tokens) ∧
    (parseCompletionResponse sampleGoodBody).isSome = true ∧
    parseCompletionResponse sampleBodyNoTotalTokens = none ∧
    parseCompletionResponse sampleBodyMistypedId = none ∧
    (parseCompletionResponse sampleBodyEmptyChoices = some sampleEmptyChoicesResult ∧
      sampleEmptyChoicesResult.choices = [] ∧
      formatResponse sampleEmptyChoicesResult = Except.error "Invalid completion response") := by
  refine ⟨?_, by decide, by decide, by decide, by decide, by decide, by rfl⟩
  intro j r h
  simp only [parseCompletionResponse, bind, Option.bind_eq_some, Option.pure_def,
    Option.some.injEq] at h
  obtain ⟨fields, hfields, id, hid, objectField, hobj, created, hcreated, model, hmodel,
    choicesRaw, hraw, choices, hchoices, usageFields, husage, pt, hpt, ct, hct, tt, htt, hr⟩ := h
  refine ⟨fields, usageFields, hfields, husage, ?_⟩
  rw [htt, ← hr]

-- Helper lemmas about decimal rendering, used to separate the transport
-- message family from every numeric-status message family.

theorem digitChar_isDigit (m : Nat) (h : m < 10) : (Nat.digitChar m).isDigit = true := by
  interval_cases m <;> decide

theorem toDigitsCore_digits : ∀ (fuel n : Nat) (acc : List Char),
    (∀ c ∈ acc, c.isDigit = true) →
    ∀ c ∈ Nat.toDigitsCore 10 fuel n acc, c.isDigit = true := by
  intro fuel
  induction fuel with
  | zero =>
    intro n acc hacc
    simpa [Nat.toDigitsCore] using hacc
  | succ f ih =>
    intro n acc hacc
    have hcons : ∀ c ∈ Nat.digitChar (n % 10) :: acc, c.isDigit = true := by
      intro c hc
      rcases List.mem_cons.mp hc with h | h
      · subst h
        exact digitChar_isDigit _ (Nat.mod_lt _ (by norm_num))
      · exact hacc c h
    simp only [Nat.toDigitsCore]
    split
    · exact hcons
    · exact ih _ _ hcons

theorem toDigitsCore_ne_nil : ∀ (fuel n : Nat) (acc : List Char), acc ≠ [] →
    Nat.toDigitsCore 10 fuel n acc ≠ [] := by
  intro fuel
  induction fuel with
  | zero =>
    intro n acc hacc
    simpa [Nat.toDigitsCore] using hacc
  | succ f ih =>
    intro n acc hacc
    simp only [Nat.toDigitsCore]
    split
    · simp
    · exact ih _ _ (by simp)

theorem reprHeadDigit (n : Nat) :
    ∃ c t, (Nat.repr n).data = c :: t ∧ c.isDigit = true := by
  have hall : ∀ c ∈ Nat.toDigits 10 n, c.isDigit = true := by
    unfold Nat.toDigits
    exact toDigitsCore_digits _ _ _ (by simp)
  have hne : Nat.toDigits 10 n ≠ [] := by
    unfold Nat.toDigits
    simp only [Nat.toDigitsCore]
    split
    · simp
    · exact toDigitsCore_ne_nil _ _ _ (by simp)
  have hdata : (Nat.repr n).data = Nat.toDigits 10 n := rfl
  cases hl : Nat.toDigits 10 n with
  | nil => exact absurd hl hne
  | cons c t =>
    refine ⟨c, t, by rw [hdata, hl], hall c ?_⟩
    rw [hl]
    exact List.mem_cons_self _ _

theorem string_data_append (a b : String) : (a ++ b).data = a.data ++ b.data := rfl

/-- No string beginning with the characters of the "undefined" status can
coincide with one beginning with the decimal rendering of a numeric
status. -/
theorem transport_ne_numeric_data (n : Nat) (l1 l2 : List Char)
    (h : apiErrorPrefix.data ++ ("undefined".data ++ l1) =
      apiErrorPrefix.data ++ ((Nat.repr n).data ++ l2)) : False := by
  have h2 := List.append_cancel_left h
  obtain ⟨c, t, hct, hdig⟩ := reprHeadDigit n
  rw [hct] at h2
  have hu : ("undefined".data ++ l1).head? = some 'u' := rfl
  rw [h2] at hu
  have hc : ((c :: t) ++ l2).head? = some c := rfl
  rw [hc] at hu
  have hcu : c = 'u' := Option.some.inj hu
  rw [hcu] at hdig
  exact absurd hdig (by decide)

/-- A list that starts with the prefix `a` differs from any list whose
first `a.length` elements are not `a`. -/
theorem append_ne_data (a rest c : List Char) (hne : c.take a.length ≠ a) :
    a ++ rest ≠ c := by
  intro h
  apply hne
  rw [← h, List.take_left]

-- Branch equations for the two catch-block translators.

theorem chatMsg_eq_401 (e : AxiosFailure) (h : failureStatus e = some 401) :
    chatCompletionErrorMessage e = authFailedMessage := by
  simp [chatCompletionErrorMessage, h]

theorem chatMsg_eq_429 (e : AxiosFailure) (h : failureStatus e = some 429) :
    chatCompletionErrorMessage e = rateLimitedMessage := by
  simp [chatCompletionErrorMessage, h]

theorem chatMsg_eq_500 (e : AxiosFailure) (h : failureStatus e = some 500) :
    chatCompletionErrorMessage e = serverErrorMessage := by
  simp [chatCompletionErrorMessage, h]

theorem chatMsg_eq_other (e : AxiosFailure) (n : Nat) (h : failureStatus e = some n)
    (h1 : n ≠ 401) (h2 : n ≠ 429) (h3 : n ≠ 500) :
    chatCompletionErrorMessage e =
      apiErrorPrefix ++ Nat.repr n ++ "): " ++ upstreamMessage e := by
  simp [chatCompletionErrorMessage, h, h1, h2, h3, statusDisplay]

theorem chatMsg_eq_transport (e : AxiosFailure) (h : failureStatus e = none) :
    chatCompletionErrorMessage e = apiErrorPrefix ++ "undefined" ++ "): " ++ e.message := by
  have hresp : e.response = none := by
    simpa [failureStatus] using h
  simp [chatCompletionErrorMessage, h, statusDisplay, upstreamMessage, hresp]

theorem fimMsg_eq_401 (e : AxiosFailure) (h : failureStatus e = some 401) :
    fimCompletionErrorMessage e = authFailedMessage := by
  simp [fimCompletionErrorMessage, h]

theorem fimMsg_eq_429 (e : AxiosFailure) (h : failureStatus e = some 429) :
    fimCompletionErrorMessage e = rateLimitedMessage := by
  simp [fimCompletionErrorMessage, h]

theorem fimMsg_eq_500 (e : AxiosFailure) (h : failureStatus e = some 500) :
    fimCompletionErrorMessage e = serverErrorMessage := by
  simp [fimCompletionErrorMessage, h]

theorem fimMsg_eq_other (e : AxiosFailure) (r : AxiosResponse) (hr : e.response = some r)
    (h1 : r.status ≠ 401) (h2 : r.status ≠ 429) (h3 : r.status ≠ 500) :
    fimCompletionErrorMessage e =
      apiErrorPrefix ++ Nat.repr r.status ++ "): " ++ upstreamMessage e ++
        "\nResponse: " ++ jsonStringify r.data := by
  have h : failureStatus e = some r.status := by simp [failureStatus, hr]
  simp [fimCompletionErrorMessage, h, h1, h2, h3, statusDisplay, hr]

theorem fimMsg_eq_transport (e : AxiosFailure) (h : failureStatus e = none) :
    fimCompletionErrorMessage e =
      apiErrorPrefix ++ "undefined" ++ "): " ++ e.message ++
        "\nResponse: " ++ "undefined" := by
  have hresp : e.response = none := by
    simpa [failureStatus] using h
  simp [fimCompletionErrorMessage, h, statusDisplay, upstreamMessage, hresp]

/-- C2: the Error Translator maps each upstream failure to exactly one error
kind: 401 to the authentication failure, 429 to the rate-limit failure, 500
to the upstream server failure, any other numeric status to the
other-status message carrying that status and the upstream-provided message
when a truthy one is present (else the generic axios message), and a
connection/timeout failure with no response to the transport message, which
differs from the message of every failure that carries a numeric status. -/
theorem C2_error_translator :
    (∀ e : AxiosFailure, failureStatus e = some 401 →
      chatCompletionErrorMessage e = authFailedMessage ∧
      fimCompletionErrorMessage e = authFailedMessage) ∧
    (∀ e : AxiosFailure, failureStatus e = some 429 →
      chatCompletionErrorMessage e = rateLimitedMessage ∧
      fimCompletionErrorMessage e = rateLimitedMessage) ∧
    (∀ e : AxiosFailure, failureStatus e = some 500 →
      chatCompletionErrorMessage e = serverErrorMessage ∧
      fimCompletionErrorMessage e = serverErrorMessage) ∧
    (∀ (e : AxiosFailure) (n : Nat), failureStatus e = some n →
      n ≠ 401 → n ≠ 429 → n ≠ 500 →
      chatCompletionErrorMessage e =
        apiErrorPrefix ++ Nat.repr n ++ "): " ++ upstreamMessage e) ∧
    (∀ (e : AxiosFailure) (r : AxiosResponse) (m : String), e.response = some r →
      (jsProp r.data "error").bind (fun x => jsProp x "message") = some (Json.str m) →
      m ≠ "" → upstreamMessage e = m) ∧
    (∀ (e : AxiosFailure) (r : AxiosResponse), e.response = some r →
      (jsProp r.data "error").bind (fun x => jsProp x "message") = none →
      upstreamMessage e = e.message) ∧
    (∀ e : AxiosFailure, failureStatus e = none →
      chatCompletionErrorMessage e = apiErrorPrefix ++ "undefined" ++ "): " ++ e.message) ∧
    (∀ e1 e2 : AxiosFailure, failureStatus e1 = none → failureStatus e2 ≠ none →
      chatCompletionErrorMessage e1 ≠ chatCompletionErrorMessage e2 ∧
      fimCompletionErrorMessage e1 ≠ fimCompletionErrorMessage e2) := by
  refine ⟨fun e h => ⟨chatMsg_eq_401 e h, fimMsg_eq_401 e h⟩,
    fun e h => ⟨chatMsg_eq_429 e h, fimMsg_eq_429 e h⟩,
    fun e h => ⟨chatMsg_eq_500 e h, fimMsg_eq_500 e h⟩,
    fun e n h h1 h2 h3 => chatMsg_eq_other e n h h1 h2 h3, ?_, ?_, ?_, ?_⟩
  · intro e r m hr hbind hm
    obtain ⟨x, hx, hmx⟩ := Option.bind_eq_some.mp hbind
    simp [upstreamMessage, hr, hx, hmx, jsTruthy, hm, jsToString]
  · intro e r hr hbind
    cases hE : jsProp r.data "error" with
    | none => simp [upstreamMessage, hr, hE]
    | some x =>
      rw [hE] at hbind
      simp only [Option.some_bind] at hbind
      simp [upstreamMessage, hr, hE, hbind]
  · exact fun e h => chatMsg_eq_transport e h
  · intro e1 e2 h1 h2
    obtain ⟨r, hr⟩ : ∃ r, e2.response = some r := by
      cases hE : e2.response with
      | none => exact absurd (by simp [failureStatus, hE]) h2
      | some r => exact ⟨r, rfl⟩
    have hst : failureStatus e2 = some r.status := by simp [failureStatus, hr]
    have hchat1 := chatMsg_eq_transport e1 h1
    have hfim1 := fimMsg_eq_transport e1 h1
    by_cases c401 : r.status = 401
    · rw [c401] at hst
      constructor
      · rw [hchat1, chatMsg_eq_401 e2 hst]
        intro heq
        have hd := congrArg String.data heq
        simp only [string_data_append, List.append_assoc] at hd
        exact append_ne_data _ _ _ (by decide) hd
      · rw [hfim1, fimMsg_eq_401 e2 hst]
        intro heq
        have hd := congrArg String.data heq
        simp only [string_data_append, List.append_assoc] at hd
        exact append_ne_data _ _ _ (by decide) hd
    · by_cases c429 : r.status = 429
      · rw [c429] at hst
        constructor
        · rw [hchat1, chatMsg_eq_429 e2 hst]
          intro heq
          have hd := congrArg String.data heq
          simp only [string_data_append, List.append_assoc] at hd
          exact append_ne_data _ _ _ (by decide) hd
        · rw [hfim1, fimMsg_eq_429 e2 hst]
          intro heq
          have hd := congrArg String.data heq
          simp only [string_data_append, List.append_assoc] at hd
          exact append_ne_data _ _ _ (by decide) hd
      · by_cases c500 : r.status = 500
        · rw [c500] at hst
          constructor
          · rw [hchat1, chatMsg_eq_500 e2 hst]
            intro heq
            have hd := congrArg String.data heq
            simp only [string_data_append, List.append_assoc] at hd
            exact append_ne_data _ _ _ (by decide) hd
          · rw [hfim1, fimMsg_eq_500 e2 hst]
            intro heq
            have hd := congrArg String.data heq
            simp only [string_data_append, List.append_assoc] at hd
            exact append_ne_data _ _ _ (by decide) hd
        · constructor
          · rw [hchat1, chatMsg_eq_other e2 r.status hst c401 c429 c500]
            intro heq
            have hd := congrArg String.data heq
            simp only [string_data_append, List.append_assoc] at hd
            exact transport_ne_numeric_data r.status _ _ hd
          · rw [hfim1, fimMsg_eq_other e2 r hr c401 c429 c500]
            intro heq
            have hd := congrArg String.data heq
            simp only [string_data_append, List.append_assoc] at hd
            exact transport_ne_numeric_data r.status _ _ hd
